import Mathlib

/-!
Verification of the ACMEv2 renewal client (`src/acme.c`) of this repository.

The development shallowly embeds the C source: every definition below mirrors
one C function or data structure of `src/acme.c` (the comments name the
function being embedded).  External collaborators (the HTTP client, OpenSSL,
mjson, the scheduler) are represented by their observable results, which are
passed in as explicit inputs.  Machine strings are Lean `String`s (C strings
never contain NUL inside).  Response bodies are represented by the fields that
`acme.c` extracts from them via mjson (`Option` = field absent).
-/

namespace Acme

/-- ASCII `tolower`, as used by `isteqi`/`strncasecmp`. -/
def lowerChar (c : Char) : Char :=
  if 'A' ≤ c ∧ c ≤ 'Z' then Char.ofNat (c.toNat + 32) else c

/-- Embeds `isteqi`: case-insensitive equality of two strings
(equal length and ASCII-case-insensitively equal characters). -/
def istEqi (a b : String) : Bool :=
  a.data.map lowerChar == b.data.map lowerChar

/-- Embeds C `strncasecmp(a, b, n) == 0` on NUL-free strings: the comparison
stops after `n` characters, at the end of both strings, or at the first
mismatch (the terminating NUL of the shorter string mismatches the next
character of the longer one). -/
def strncaseEq : List Char → List Char → Nat → Bool
  | _, _, 0 => true
  | [], [], _ + 1 => true
  | [], _ :: _, _ + 1 => false
  | _ :: _, [], _ + 1 => false
  | a :: as, b :: bs, n + 1 => lowerChar a == lowerChar b && strncaseEq as bs n

/-- Embeds the challenge-type test of `acme_res_auth`:
`strncasecmp(ctx->cfg->challenge, type, strlen(type)) == 0`
(note the bound is the length of the type found in the response). -/
def typeMatch (cfgChall t : String) : Bool :=
  strncaseEq cfgChall.data t.data t.length

/-- One HTTP response header (`struct http_hdr`). -/
structure HttpHdr where
  hname : String
  hvalue : String
deriving DecidableEq, Repr

/-- One entry of the `challenges[]` array of an authorization response,
as extracted by mjson in `acme_res_auth` (`none` = field absent). -/
structure Chall where
  ctype : Option String
  curl : Option String
  ctoken : Option String
deriving DecidableEq, Repr

/-- The JSON fields of a response body that `acme.c` extracts with mjson.
`errorObj` tells whether `$.error` is a JSON object (`mjson_find` returns
`MJSON_TOK_OBJECT`). `none` on the other fields means mjson did not find the
field. -/
structure Body where
  errorObj : Bool
  detail : Option String
  etype : Option String
  challenges : List Chall
  authorizations : List String
  finalize : Option String
  certificate : Option String
  ostatus : Option String
  newNonce : Option String
  newAccount : Option String
  newOrder : Option String
deriving DecidableEq, Repr

/-- An empty body, for responses whose body the code ignores. -/
def Body.empty : Body :=
  ⟨false, none, none, [], [], none, none, none, none, none, none⟩

/-- A completed HTTP response as seen by the `acme_res_*` handlers. -/
structure Response where
  status : Nat
  hdrs : List HttpHdr
  body : Body
deriving DecidableEq, Repr

/-- Embeds the header loop shared by all response handlers: each header named
`Replay-Nonce` (case-insensitively) replaces the stored nonce
(`istfree(&ctx->nonce); ctx->nonce = istdup(hdr->v);`). -/
def scanNonce (nonce : Option String) (hdrs : List HttpHdr) : Option String :=
  hdrs.foldl (fun n h => if istEqi h.hname "Replay-Nonce" then some h.hvalue else n) nonce

/-- Embeds the `Location` harvesting of `acme_res_account`/`acme_res_neworder`:
each `Location` header replaces the stored value. -/
def scanLocation (loc : Option String) (hdrs : List HttpHdr) : Option String :=
  hdrs.foldl (fun l h => if istEqi h.hname "Location" then some h.hvalue else l) loc

/-- The last `Replay-Nonce` header value of a header list (the specification
view of the scan: the value the nonce ends up holding). -/
def lastNonceHdr (hdrs : List HttpHdr) : Option String :=
  (hdrs.filter (fun h => istEqi h.hname "Replay-Nonce")).getLast?.map (·.hvalue)

/-- C `status < 200 || status >= 300` non-2xx classification. -/
def non2xx (status : Nat) : Bool :=
  status < 200 || 300 ≤ status

/-- Result of `acme_res_account`: the updated `kid` and `nonce` and whether the
handler succeeded (returned 0). -/
structure AccountRes where
  kid : Option String
  nonce : Option String
  ok : Bool
deriving DecidableEq, Repr

/-- Embeds `acme_res_account`: harvest `Location` (as `kid`) and `Replay-Nonce`
from the headers, then classify the status; a non-2xx status is still a
success when probing (`newaccount == 0`) and the body's `$.type` is
`urn:ietf:params:acme:error:accountDoesNotExist`. -/
def acme_res_account (kid nonce : Option String) (newaccount : Bool) (r : Response) : AccountRes :=
  let kid := scanLocation kid r.hdrs
  let nonce := scanNonce nonce r.hdrs
  if non2xx r.status then
    if !newaccount && (r.body.etype == some "urn:ietf:params:acme:error:accountDoesNotExist") then
      { kid, nonce, ok := true }
    else
      { kid, nonce, ok := false }
  else
    { kid, nonce, ok := true }

/-- Embeds `acme_nonce` (the newNonce HEAD response handler).  Note the order
taken from the source: the status is classified FIRST, and the headers are
scanned for `Replay-Nonce` only on a 2xx status.  Returns the updated nonce
and whether the handler succeeded. -/
def acme_nonce (nonce : Option String) (r : Response) : Option String × Bool :=
  if non2xx r.status then (nonce, false)
  else (scanNonce nonce r.hdrs, true)

/-- Embeds `acme_res_challenge` (used for both the CHALLENGE POST response and
the CHKCHALLENGE GET response): harvest `Replay-Nonce`, then fail iff the
status is non-2xx or the body carries an `$.error` object.  The `$.status`
field of the challenge object is never read. -/
def acme_res_challenge (nonce : Option String) (r : Response) : Option String × Bool :=
  let nonce := scanNonce nonce r.hdrs
  if non2xx r.status || r.body.errorObj then (nonce, false)
  else (nonce, true)

/-- Embeds `acme_res_finalize`: harvest `Replay-Nonce`, fail iff non-2xx. -/
def acme_res_finalize (nonce : Option String) (r : Response) : Option String × Bool :=
  let nonce := scanNonce nonce r.hdrs
  if non2xx r.status then (nonce, false)
  else (nonce, true)

/-- One authorization of the order (`struct acme_auth`): the authorization
URL, and the challenge URL and token once selected. -/
structure AcmeAuth where
  aurl : String
  chall : Option String
  token : Option String
deriving DecidableEq, Repr, Inhabited

/-- Embeds the challenge-selection loop of `acme_res_auth`: scan
`challenges[]` linearly; an entry without a `type` is an error; an entry whose
`type` does not pass `typeMatch` is skipped; the first passing entry has its
`url` and `token` stored into the auth (a missing `url` or `token` is an
error, with the partial store kept, as in the source) and the loop breaks.
Running off the end of the array falls through to `out` (success). -/
def auth_select (cfgChall : String) (auth : AcmeAuth) : List Chall → AcmeAuth × Bool
  | [] => (auth, true)
  | c :: rest =>
    match c.ctype with
    | none => (auth, false)
    | some t =>
      if !typeMatch cfgChall t then auth_select cfgChall auth rest
      else
        match c.curl with
        | none => (auth, false)
        | some u =>
          match c.ctoken with
          | none => ({ auth with chall := some u }, false)
          | some tok => ({ auth with chall := some u, token := some tok }, true)

/-- Result of `acme_res_auth`. -/
structure AuthRes where
  nonce : Option String
  auth : AcmeAuth
  ok : Bool
deriving DecidableEq, Repr

/-- Embeds `acme_res_auth`: harvest `Replay-Nonce`, fail on a non-2xx status,
otherwise run the challenge-selection loop on the body's `challenges[]`. -/
def acme_res_auth (cfgChall : String) (nonce : Option String) (auth : AcmeAuth)
    (r : Response) : AuthRes :=
  let nonce := scanNonce nonce r.hdrs
  if non2xx r.status then { nonce, auth, ok := false }
  else
    let (a, ok) := auth_select cfgChall auth r.body.challenges
    { nonce, auth := a, ok }

/-- Result of `acme_res_neworder`. -/
structure NeworderRes where
  nonce : Option String
  order : Option String
  auths : List AcmeAuth
  finalize : Option String
  ok : Bool
deriving DecidableEq, Repr

/-- Embeds `acme_res_neworder`: harvest `Replay-Nonce` and `Location` (the
order URL); fail on non-2xx or a missing order URL; collect
`authorizations[]`, each PREPENDED to the auth list (`auth->next = ctx->auths`)
so the list ends up in reverse response order with `next_auth` at its head;
finally read `$.finalize` (absent = failure). -/
def acme_res_neworder (nonce order finalize : Option String) (auths : List AcmeAuth)
    (r : Response) : NeworderRes :=
  let nonce := scanNonce nonce r.hdrs
  let order := scanLocation order r.hdrs
  if non2xx r.status then { nonce, order, auths, finalize, ok := false }
  else if order == none then { nonce, order, auths, finalize, ok := false }
  else
    let auths := r.body.authorizations.foldl
      (fun acc u => { aurl := u, chall := none, token := none } :: acc) auths
    match r.body.finalize with
    | none => { nonce, order, auths, finalize, ok := false }
    | some f => { nonce, order, auths, finalize := some f, ok := true }

/-- Embeds the order-status test of `acme_res_chkorder`:
`strncasecmp("valid", status, strlen(status)) == 0`. -/
def statusValidMatch (s : String) : Bool :=
  strncaseEq "valid".data s.data s.length

/-- Result of `acme_res_chkorder`. -/
structure ChkorderRes where
  nonce : Option String
  certificate : Option String
  ok : Bool
deriving DecidableEq, Repr

/-- Embeds `acme_res_chkorder`: harvest `Replay-Nonce`; fail on non-2xx; read
`$.certificate` (absent = failure) into the ctx; then require `$.status` to
match `valid`. -/
def acme_res_chkorder (nonce certificate : Option String) (r : Response) : ChkorderRes :=
  let nonce := scanNonce nonce r.hdrs
  if non2xx r.status then { nonce, certificate, ok := false }
  else
    match r.body.certificate with
    | none => { nonce, certificate, ok := false }
    | some c =>
      match r.body.ostatus with
      | none => { nonce, certificate := some c, ok := false }
      | some s =>
        if statusValidMatch s then { nonce, certificate := some c, ok := true }
        else { nonce, certificate := some c, ok := false }

/-- The directory URLs (`ctx->ressources`). -/
structure Ressources where
  newNonce : Option String
  newAccount : Option String
  newOrder : Option String
deriving DecidableEq, Repr

/-- Embeds `acme_directory`: the status must be exactly 200; the three URLs
are read from the body in turn, each absent (or empty, mjson length `<= 0`)
one being a failure; the error path frees all three stored URLs. -/
def acme_directory (r : Response) : Ressources × Bool :=
  if r.status ≠ 200 then (⟨none, none, none⟩, false)
  else
    match r.body.newNonce, r.body.newAccount, r.body.newOrder with
    | some nn, some na, some no => (⟨some nn, some na, some no⟩, true)
    | _, _, _ => (⟨none, none, none⟩, false)

/-- The key/certificate slots of a `ckch_store`'s data (`store->data`).  The
private key is identified by an abstract tag (pointer identity). -/
structure StoreData where
  key : Option Nat
  cert : Option String
deriving DecidableEq, Repr

/-- Outcomes of the external calls made by `acme_res_certificate`:
`pemResult` is the result of `ssl_sock_load_pem_into_ckch` on the response
body (`none` = the load failed; `some d` = the data after a successful load,
whose `key` slot holds whatever key the PEM carried, usually `none`), and
`updateOk` is the result of `acme_update_certificate`. -/
structure CertEnv where
  pemResult : Option StoreData
  updateOk : Bool
deriving DecidableEq, Repr

/-- Result of `acme_res_certificate`. -/
structure CertRes where
  nonce : Option String
  store : StoreData
  ok : Bool
deriving DecidableEq, Repr

/-- Embeds `acme_res_certificate`: harvest `Replay-Nonce`; fail on non-2xx
(store untouched); then save the key pointer and NULL the slot
(`key = ctx->store->data->key; ctx->store->data->key = NULL;`), load the PEM
chain into the store — on load failure the function takes the error path
WITHOUT restoring the key — and on success restore the saved key and run
`acme_update_certificate`. -/
def acme_res_certificate (nonce : Option String) (store : StoreData)
    (env : CertEnv) (r : Response) : CertRes :=
  let nonce := scanNonce nonce r.hdrs
  if non2xx r.status then { nonce, store, ok := false }
  else
    let key := store.key
    let store := { store with key := none }
    match env.pemResult with
    | none => { nonce, store, ok := false }
    | some d =>
      let store := { d with key := key }
      if env.updateOk then { nonce, store, ok := true }
      else { nonce, store, ok := false }

/-- State of the store-wide `CKCH_LOCK` spinlock as seen from the renewal
task: free, or currently held by another party. -/
inductive LockSt
  | Free
  | HeldByOther
deriving DecidableEq, Repr

/-- A TLS binding (`ckch_inst`) attached to a store entry, abstractly. -/
structure CkchInst where
  iid : Nat
deriving DecidableEq, Repr

/-- One certificate store entry (`ckch_store`): its path and its bindings. -/
structure CkchStore where
  path : String
  insts : List CkchInst
deriving DecidableEq, Repr

/-- The shared mutable state touched by `acme_update_certificate`: the
`CKCH_LOCK` and the store index (`ckchs_tree`). -/
structure CkchWorld where
  lock : LockSt
  index : List CkchStore
deriving DecidableEq, Repr

/-- Embeds `ckchs_lookup`: find the store entry with the given path. -/
def ckchs_lookup (idx : List CkchStore) (p : String) : Option CkchStore :=
  idx.find? (fun s => s.path == p)

/-- Embeds `ckch_store_replace`: the entry at the old entry's path is replaced
by the new entry in the index. -/
def ckch_store_replace (idx : List CkchStore) (p : String) (ns : CkchStore) : List CkchStore :=
  idx.map (fun s => if s.path == p then ns else s)

/-- The `list_for_each_entry_from` rebuild loop of `acme_update_certificate`:
rebuild every binding of the old entry against the new one
(`ckch_inst_rebuild`, whose outcome is the external input `rebuild`); the
first failure aborts the walk. -/
def rebuildAll (rebuild : CkchInst → Option CkchInst) : List CkchInst → Option (List CkchInst)
  | [] => some []
  | i :: rest =>
    match rebuild i with
    | none => none
    | some ni => (rebuildAll rebuild rest).map (fun l => ni :: l)

/-- Result of `acme_update_certificate`. -/
structure UpdateRes where
  world : CkchWorld
  ok : Bool
  errmsg : Option String
deriving DecidableEq, Repr

/-- Embeds `acme_update_certificate`.  Faithful to the source, INCLUDING its
error label: `HA_SPIN_TRYLOCK` failing (the lock held by another party) jumps
to `error:`, which runs `HA_SPIN_UNLOCK` — so the foreign lock ends up
released.  A failed lookup or a failed binding rebuild also reaches `error:`
after a genuine acquisition, with the store index untouched; only when every
rebuild succeeded does `ckch_store_replace` swap the entry. -/
def acme_update_certificate (w : CkchWorld) (newStore : CkchStore)
    (rebuild : CkchInst → Option CkchInst) : UpdateRes :=
  if w.lock ≠ LockSt.Free then
    { world := { w with lock := LockSt.Free }, ok := false,
      errmsg := some "couldn't get the certificate lock!" }
  else
    match ckchs_lookup w.index newStore.path with
    | none =>
      { world := { w with lock := LockSt.Free }, ok := false,
        errmsg := some "couldn't find the previous certificate to update" }
    | some old =>
      match rebuildAll rebuild old.insts with
      | none =>
        { world := { w with lock := LockSt.Free }, ok := false,
          errmsg := some "ckch_inst_rebuild failure" }
      | some newInsts =>
        let ns : CkchStore := { newStore with insts := newStore.insts ++ newInsts }
        { world := { lock := LockSt.Free,
                     index := ckch_store_replace w.index newStore.path ns },
          ok := true, errmsg := none }

/-- Outcomes of the external calls made while building and issuing one
request: trash-chunk allocation, DER/base64url encoding of the CSR
(`i2d_X509_REQ`/`a2base64url`, finalize only), `acme_jws_payload`, and
`acme_http_req` (the async HTTP client setup). -/
structure ReqEnv where
  allocOk : Bool
  derOk : Bool
  jwsOk : Bool
  httpOk : Bool
deriving DecidableEq, Repr

/-- Result of a request builder: the return value (0 = `ok`) and the final
content of `*errmsg`. -/
structure ReqOut where
  ok : Bool
  errmsg : Option String
deriving DecidableEq, Repr

/-- Embeds `acme_req_account` (both the `onlyReturnExisting` probe and the
real creation POST share it).  The success path (`ret = 0`) falls through
into the `error:` label, whose `memprintf` runs on EVERY path, so `*errmsg`
is overwritten with the fixed message even on success. -/
def acme_req_account (env : ReqEnv) : ReqOut :=
  let ret : Bool :=
    if !env.allocOk then false
    else if !env.jwsOk then false
    else if !env.httpOk then false
    else true
  { ok := ret, errmsg := some "couldn't generate the newAccount request" }

/-- Embeds `acme_req_neworder`; `san` is `ctx->store->conf.acme.domains`
(`none` = NULL pointer, rejected before the JWS step).  As in
`acme_req_account`, the `error:` label's `memprintf` runs on every path. -/
def acme_req_neworder (env : ReqEnv) (san : Option (List String)) : ReqOut :=
  let ret : Bool :=
    if !env.allocOk then false
    else if san == none then false
    else if !env.jwsOk then false
    else if !env.httpOk then false
    else true
  { ok := ret, errmsg := some "couldn't generate the newOrder request" }

/-- Embeds `acme_req_auth` (the POST-as-GET of an authorization URL); the
`error:` label's `memprintf` runs on every path. -/
def acme_req_auth (env : ReqEnv) : ReqOut :=
  let ret : Bool :=
    if !env.allocOk then false
    else if !env.jwsOk then false
    else if !env.httpOk then false
    else true
  { ok := ret, errmsg := some "couldn't generate the Authorizations request" }

/-- Embeds `acme_req_challenge` (the `{}` READY POST); the `error:` label's
`memprintf` runs on every path. -/
def acme_req_challenge (env : ReqEnv) : ReqOut :=
  let ret : Bool :=
    if !env.allocOk then false
    else if !env.jwsOk then false
    else if !env.httpOk then false
    else true
  { ok := ret, errmsg := some "couldn't generate the Challenge request" }

/-- Embeds `acme_req_finalize` (the CSR POST): allocations, then
`i2d_X509_REQ` and `a2base64url`, then the JWS and the HTTP issue; the
`error:` label's `memprintf` runs on every path. -/
def acme_req_finalize (env : ReqEnv) : ReqOut :=
  let ret : Bool :=
    if !env.allocOk then false
    else if !env.derOk then false
    else if !env.jwsOk then false
    else if !env.httpOk then false
    else true
  { ok := ret, errmsg := some "couldn't request the finalize URL" }

/-- The protocol states of `enum acme_st`. -/
inductive AcmeSt
  | RESSOURCES
  | NEWNONCE
  | CHKACCOUNT
  | NEWACCOUNT
  | NEWORDER
  | AUTH
  | CHALLENGE
  | CHKCHALLENGE
  | FINALIZE
  | CHKORDER
  | CERTIFICATE
  | END
deriving DecidableEq, Repr

/-- The HTTP sub-states of `enum http_st`. -/
inductive HttpSt
  | REQ
  | RES
deriving DecidableEq, Repr

/-- The in-flight renewal state (`struct acme_ctx`).  `ctx->next_auth` (a
pointer into the singly linked `auths` list) is represented by the index
`nextAuth` into `auths`; an index `≥ auths.length` is the NULL pointer. -/
structure AcmeCtx where
  state : AcmeSt
  http_state : HttpSt
  retries : Int
  nonce : Option String
  kid : Option String
  order : Option String
  finalize : Option String
  certificate : Option String
  ressources : Ressources
  auths : List AcmeAuth
  nextAuth : Nat
  store : StoreData
  domains : Option (List String)
  cfgChallenge : String
deriving DecidableEq, Repr

/-- All external outcomes feeding one invocation of `acme_process`: the
request-building environment (REQ phase), the completed response (RES phase),
and the certificate-ingestion outcomes (CERTIFICATE RES phase). -/
structure StepEnv where
  req : ReqEnv
  resp : Response
  cert : CertEnv
deriving DecidableEq, Repr

/-- Result of one invocation of `acme_process`: the context as stored back,
whether `task_destroy` ran (`end:` label), whether `task_wakeup` ran, and
whether the `retry:` label ran. -/
structure StepRes where
  ctx : AcmeCtx
  destroyed : Bool
  woken : Bool
  retried : Bool
deriving DecidableEq, Repr

/-- Embeds the `retry:` label of `acme_process`: decrement the budget; while
it stays positive log and self-wake, otherwise log and fall into `end:`
(`task_destroy`). -/
def acme_retry (ctx : AcmeCtx) : StepRes :=
  let ctx := { ctx with retries := ctx.retries - 1 }
  if ctx.retries > 0 then { ctx, destroyed := false, woken := true, retried := true }
  else { ctx, destroyed := true, woken := false, retried := true }

/-- A return of `acme_process` with the task suspended, waiting for the HTTP
client to call back (a REQ phase whose issue succeeded). -/
def acme_suspend (ctx : AcmeCtx) : StepRes :=
  { ctx, destroyed := false, woken := false, retried := false }

/-- A return of `acme_process` after a successful RES phase: the advanced
context is stored back and the task self-wakes (`task_wakeup`). -/
def acme_wake (ctx : AcmeCtx) : StepRes :=
  { ctx, destroyed := false, woken := true, retried := false }

/-- Embeds one invocation of the task body `acme_process`.  In a REQ phase the
request is built and issued (failure goes to `retry:`, success suspends).  In
a RES phase the state's handler runs; failure sets the local phase back to
REQ and goes to `retry:`; success advances the state and self-wakes.  Two
paths reach `end:` (`task_destroy`) outside retry exhaustion: the NEWACCOUNT
success path (which runs `task_wakeup` and then `goto end`) and the
CERTIFICATE success path; on those paths the `ctx->http_state`/`ctx->state`
store-back at the function epilogue is skipped, exactly as the `goto end`
skips it in the source. -/
def acme_process (ctx : AcmeCtx) (env : StepEnv) : StepRes :=
  match ctx.state, ctx.http_state with
  | .RESSOURCES, .REQ =>
    if env.req.httpOk then acme_suspend ctx else acme_retry ctx
  | .RESSOURCES, .RES =>
    let (res, ok) := acme_directory env.resp
    let ctx := { ctx with ressources := res }
    if ok then acme_wake { ctx with state := .NEWNONCE, http_state := .REQ }
    else acme_retry { ctx with http_state := .REQ }
  | .NEWNONCE, .REQ =>
    if env.req.httpOk then acme_suspend ctx else acme_retry ctx
  | .NEWNONCE, .RES =>
    let (n, ok) := acme_nonce ctx.nonce env.resp
    let ctx := { ctx with nonce := n }
    if ok then acme_wake { ctx with state := .CHKACCOUNT, http_state := .REQ }
    else acme_retry { ctx with http_state := .REQ }
  | .CHKACCOUNT, .REQ =>
    if (acme_req_account env.req).ok then acme_suspend ctx else acme_retry ctx
  | .CHKACCOUNT, .RES =>
    let a := acme_res_account ctx.kid ctx.nonce false env.resp
    let ctx := { ctx with kid := a.kid, nonce := a.nonce }
    if a.ok then
      let st := if ctx.kid = none then AcmeSt.NEWACCOUNT else AcmeSt.NEWORDER
      acme_wake { ctx with state := st, http_state := .REQ }
    else acme_retry { ctx with http_state := .REQ }
  | .NEWACCOUNT, .REQ =>
    if (acme_req_account env.req).ok then acme_suspend ctx else acme_retry ctx
  | .NEWACCOUNT, .RES =>
    let a := acme_res_account ctx.kid ctx.nonce true env.resp
    let ctx := { ctx with kid := a.kid, nonce := a.nonce }
    if a.ok then
      { ctx, destroyed := true, woken := true, retried := false }
    else acme_retry { ctx with http_state := .REQ }
  | .NEWORDER, .REQ =>
    if (acme_req_neworder env.req ctx.domains).ok then acme_suspend ctx else acme_retry ctx
  | .NEWORDER, .RES =>
    let a := acme_res_neworder ctx.nonce ctx.order ctx.finalize ctx.auths env.resp
    let ctx := { ctx with nonce := a.nonce, order := a.order, auths := a.auths,
                          finalize := a.finalize, nextAuth := 0 }
    if a.ok then acme_wake { ctx with state := .AUTH, http_state := .REQ }
    else acme_retry { ctx with http_state := .REQ }
  | .AUTH, .REQ =>
    if (acme_req_auth env.req).ok then acme_suspend ctx else acme_retry ctx
  | .AUTH, .RES =>
    let auth := ctx.auths.getD ctx.nextAuth default
    let a := acme_res_auth ctx.cfgChallenge ctx.nonce auth env.resp
    let ctx := { ctx with nonce := a.nonce, auths := ctx.auths.set ctx.nextAuth a.auth }
    if a.ok then
      let ctx := { ctx with http_state := .REQ }
      if ctx.nextAuth + 1 ≥ ctx.auths.length then
        acme_wake { ctx with state := .CHALLENGE, nextAuth := 0 }
      else acme_wake { ctx with nextAuth := ctx.nextAuth + 1 }
    else acme_retry { ctx with http_state := .REQ }
  | .CHALLENGE, .REQ =>
    if (acme_req_challenge env.req).ok then acme_suspend ctx else acme_retry ctx
  | .CHALLENGE, .RES =>
    let (n, ok) := acme_res_challenge ctx.nonce env.resp
    let ctx := { ctx with nonce := n }
    if ok then
      let ctx := { ctx with http_state := .REQ }
      if ctx.nextAuth + 1 ≥ ctx.auths.length then
        acme_wake { ctx with state := .CHKCHALLENGE, nextAuth := 0 }
      else acme_wake { ctx with nextAuth := ctx.nextAuth + 1 }
    else acme_retry { ctx with http_state := .REQ }
  | .CHKCHALLENGE, .REQ =>
    if env.req.httpOk then acme_suspend ctx else acme_retry ctx
  | .CHKCHALLENGE, .RES =>
    let (n, ok) := acme_res_challenge ctx.nonce env.resp
    let ctx := { ctx with nonce := n }
    if ok then
      let ctx := { ctx with http_state := .REQ, nextAuth := ctx.nextAuth + 1 }
      if ctx.nextAuth ≥ ctx.auths.length then
        acme_wake { ctx with state := .FINALIZE }
      else acme_wake ctx
    else acme_retry { ctx with http_state := .REQ }
  | .FINALIZE, .REQ =>
    if (acme_req_finalize env.req).ok then acme_suspend ctx else acme_retry ctx
  | .FINALIZE, .RES =>
    let (n, ok) := acme_res_finalize ctx.nonce env.resp
    let ctx := { ctx with nonce := n }
    if ok then acme_wake { ctx with state := .CHKORDER, http_state := .REQ }
    else acme_retry { ctx with http_state := .REQ }
  | .CHKORDER, .REQ =>
    if env.req.httpOk then acme_suspend ctx else acme_retry ctx
  | .CHKORDER, .RES =>
    let a := acme_res_chkorder ctx.nonce ctx.certificate env.resp
    let ctx := { ctx with nonce := a.nonce, certificate := a.certificate }
    if a.ok then acme_wake { ctx with state := .CERTIFICATE, http_state := .REQ }
    else acme_retry { ctx with http_state := .REQ }
  | .CERTIFICATE, .REQ =>
    if env.req.httpOk then acme_suspend ctx else acme_retry ctx
  | .CERTIFICATE, .RES =>
    let a := acme_res_certificate ctx.nonce ctx.store env.cert env.resp
    let ctx := { ctx with nonce := a.nonce, store := a.store }
    if a.ok then { ctx, destroyed := true, woken := false, retried := false }
    else acme_retry { ctx with http_state := .REQ }
  | .END, _ =>
    { ctx, destroyed := true, woken := false, retried := false }

/-- A PKCS#10 certificate request as `acme_x509_req` builds it: the public
key of the supplied key pair, the Subject CN, the pushed extension stack as
(extension-name, value) pairs, and the signature (signing key and digest). -/
structure X509Req where
  pubkey : Nat
  subjectCN : Option String
  extensions : List (String × String)
  sigKey : Option Nat
  sigMD : String
deriving DecidableEq, Repr

/-- Embeds the SAN-string loop of `acme_x509_req`:
`chunk_appendf(san_trash, "%sDNS:%s", i ? "," : "", san[i])` over the
NUL-terminated name array. -/
def sanChunkAux (first : Bool) : List String → String
  | [] => ""
  | s :: rest => (if first then "" else ",") ++ "DNS:" ++ s ++ sanChunkAux false rest

/-- The comma-joined `DNS:` list produced by `acme_x509_req`. -/
def sanChunk (san : List String) : String :=
  sanChunkAux true san

/-- Embeds `acme_x509_req`.  Keys are abstract tags (`Nat`); the OpenSSL
constructors are assumed not to fail on well-formed inputs, except for the CN
entry: an empty NUL-terminated name array makes the source pass `san[0] ==
NULL` (with length -1) to `X509_NAME_add_entry_by_txt`, which OpenSSL rejects
(`X509_NAME_ENTRY_set_data` returns 0 when `bytes == NULL && len != 0`), so
the builder takes its error path and returns NULL. -/
def acme_x509_req (pkey : Nat) (san : List String) : Option X509Req :=
  match san.head? with
  | none => none
  | some cn =>
    some { pubkey := pkey
         , subjectCN := some cn
         , extensions := [("subjectAltName", sanChunk san)]
         , sigKey := some pkey
         , sigMD := "SHA256" }

/-- Embeds the CSR step of `cli_acme_renew_parse` (lines 1836-1840): run
`acme_x509_req` on the freshly generated key and the store's domain list; a
NULL result reports `Can't generate a CSR.` to the CLI caller. -/
def cli_csr_step (pkey : Nat) (domains : List String) : Except String X509Req :=
  match acme_x509_req pkey domains with
  | none => Except.error "Can't generate a CSR.\n"
  | some r => Except.ok r

/-- A specification-side rendering of the SAN extension value: the
comma-joined `DNS:<name>` list, written independently of the builder loop. -/
def dnsJoin : List String → String
  | [] => ""
  | [s] => "DNS:" ++ s
  | s :: rest => "DNS:" ++ s ++ "," ++ dnsJoin rest

/-- The predicate the challenge-selection loop effectively tests on one
`challenges[]` entry (an absent type never matches here; the loop errors on it
before testing). -/
def challSelPred (cfg : String) (c : Chall) : Bool :=
  typeMatch cfg (c.ctype.getD "")

/-- A baseline in-flight context used by the concrete test vectors. -/
def ctxBase : AcmeCtx :=
  { state := AcmeSt.RESSOURCES
  , http_state := HttpSt.REQ
  , retries := 3
  , nonce := some "nonce0"
  , kid := none
  , order := none
  , finalize := none
  , certificate := none
  , ressources := ⟨some "https://nn", some "https://na", some "https://no"⟩
  , auths := []
  , nextAuth := 0
  , store := ⟨some 7, none⟩
  , domains := some ["example.com"]
  , cfgChallenge := "HTTP-01" }

/-- A step environment where every external operation succeeds. -/
def envOk : StepEnv :=
  { req := ⟨true, true, true, true⟩
  , resp := { status := 200, hdrs := [], body := Body.empty }
  , cert := ⟨some ⟨none, some "pem"⟩, true⟩ }

/-- The context of the C1 failing input: state NEWACCOUNT, a response has
just completed. -/
def ctxC1 : AcmeCtx :=
  { ctxBase with state := AcmeSt.NEWACCOUNT, http_state := HttpSt.RES }

/-- The C1 failing input response: 201 Created on the newAccount creation
POST, carrying the account `Location` and a fresh `Replay-Nonce`. -/
def respC1 : Response :=
  { status := 201
  , hdrs := [⟨"Location", "https://acct/1"⟩, ⟨"Replay-Nonce", "nonce1"⟩]
  , body := Body.empty }

/-- An authorization whose challenge has not been selected yet. -/
def authA : AcmeAuth := ⟨"https://auth/1", none, none⟩

/-- C2 first input: a 2xx authorization response offering only `dns-01`
while the configuration asks for `HTTP-01`. -/
def respC2a : Response :=
  { status := 200, hdrs := []
  , body := { Body.empty with challenges := [⟨some "dns-01", some "https://ch/1", some "tok1"⟩] } }

/-- C2 second input: a 2xx authorization response whose entry's type `http`
is a strict case-insensitive prefix of the configured `HTTP-01`. -/
def respC2b : Response :=
  { status := 200, hdrs := []
  , body := { Body.empty with challenges := [⟨some "http", some "https://ch/2", some "tok2"⟩] } }

/-- The context of the C3 counterexample: CHKCHALLENGE polling the single
authorization of the order. -/
def ctxC3 : AcmeCtx :=
  { ctxBase with
      state := AcmeSt.CHKCHALLENGE
      http_state := HttpSt.RES
      auths := [⟨"https://auth/1", some "https://ch/1", some "tok1"⟩]
      nextAuth := 0 }

/-- The C3 counterexample response: 2xx, no error object, and the challenge
object's status still `pending`. -/
def respC3 : Response :=
  { status := 200, hdrs := [], body := { Body.empty with ostatus := some "pending" } }

/-- A 400 response that carries a fresh `Replay-Nonce` (the C4
counterexample input for the newNonce handler). -/
def respC4 : Response :=
  { status := 400, hdrs := [⟨"Replay-Nonce", "fresh"⟩], body := Body.empty }

/-- A store index with one live entry carrying two TLS bindings. -/
def idx6 : List CkchStore := [⟨"site.pem", [⟨1⟩, ⟨2⟩]⟩]

/-- The new (duplicate) store entry produced by the renewal. -/
def ns6 : CkchStore := ⟨"site.pem", []⟩

/-- A rebuild outcome that succeeds on every binding, shifting the tag. -/
def rbOk : CkchInst → Option CkchInst := fun i => some ⟨i.iid + 10⟩

/-- A rebuild outcome that fails on binding 2. -/
def rbFail : CkchInst → Option CkchInst := fun i => if i.iid = 2 then none else some ⟨i.iid + 10⟩

lemma acme_retry_spec (c : AcmeCtx) :
    (acme_retry c).ctx.http_state = c.http_state ∧
    (acme_retry c).ctx.retries = c.retries - 1 ∧
    (acme_retry c).retried = true ∧
    ((acme_retry c).destroyed = true ↔ c.retries - 1 ≤ 0) ∧
    ((acme_retry c).woken = true ↔ 0 < c.retries - 1) := by
  by_cases h : 0 < c.retries - 1
  · simp [acme_retry, h]
    omega
  · simp [acme_retry, h]
    omega

lemma acme_wake_retried (c : AcmeCtx) : (acme_wake c).retried = false := rfl

lemma acme_suspend_retried (c : AcmeCtx) : (acme_suspend c).retried = false := rfl

lemma retry_cases (ctx : AcmeCtx) (env : StepEnv) :
    (acme_process ctx env).retried = false ∨
    ∃ c, acme_process ctx env = acme_retry c ∧
      c.http_state = HttpSt.REQ ∧ c.retries = ctx.retries := by
  obtain ⟨st, hst, retr, nonce, kid, order, fin, cert, res, auths, na, store, doms, cfg⟩ := ctx
  cases st <;> cases hst <;>
    simp only [acme_process] <;>
    (repeat' split) <;>
    first
      | exact Or.inl rfl
      | exact Or.inl trivial
      | exact Or.inr ⟨_, rfl, rfl, rfl⟩

lemma scanNonce_concat (nonce : Option String) (t : List HttpHdr) (x : HttpHdr) :
    scanNonce nonce (t ++ [x]) =
      if istEqi x.hname "Replay-Nonce" then some x.hvalue else scanNonce nonce t := by
  simp [scanNonce, List.foldl_append]

lemma lastNonceHdr_concat (t : List HttpHdr) (x : HttpHdr) :
    lastNonceHdr (t ++ [x]) =
      if istEqi x.hname "Replay-Nonce" then some x.hvalue else lastNonceHdr t := by
  simp only [lastNonceHdr, List.filter_append]
  by_cases hp : istEqi x.hname "Replay-Nonce"
  · simp [hp, List.getLast?_concat]
  · simp [hp]

lemma scanNonce_last (hdrs : List HttpHdr) (v : String) (nonce : Option String)
    (h : lastNonceHdr hdrs = some v) : scanNonce nonce hdrs = some v := by
  induction hdrs using List.reverseRecOn with
  | nil => simp [lastNonceHdr] at h
  | append_singleton t x ih =>
    rw [lastNonceHdr_concat] at h
    rw [scanNonce_concat]
    by_cases hp : istEqi x.hname "Replay-Nonce"
    · simp [hp] at h ⊢
      exact h
    · simp [hp] at h ⊢
      exact ih h

lemma res_account_nonce (kid nonce : Option String) (b : Bool) (r : Response) :
    (acme_res_account kid nonce b r).nonce = scanNonce nonce r.hdrs := by
  simp only [acme_res_account]
  split
  · split <;> rfl
  · rfl

lemma res_challenge_nonce (nonce : Option String) (r : Response) :
    (acme_res_challenge nonce r).1 = scanNonce nonce r.hdrs := by
  simp only [acme_res_challenge]
  split <;> rfl

lemma res_finalize_nonce (nonce : Option String) (r : Response) :
    (acme_res_finalize nonce r).1 = scanNonce nonce r.hdrs := by
  simp only [acme_res_finalize]
  split <;> rfl

lemma res_auth_nonce (cfg : String) (nonce : Option String) (auth : AcmeAuth) (r : Response) :
    (acme_res_auth cfg nonce auth r).nonce = scanNonce nonce r.hdrs := by
  simp only [acme_res_auth]
  split
  · rfl
  · rfl

lemma res_neworder_nonce (nonce order finalize : Option String) (auths : List AcmeAuth)
    (r : Response) :
    (acme_res_neworder nonce order finalize auths r).nonce = scanNonce nonce r.hdrs := by
  simp only [acme_res_neworder]
  split
  · rfl
  · split
    · rfl
    · split <;> rfl

lemma res_chkorder_nonce (nonce certificate : Option String) (r : Response) :
    (acme_res_chkorder nonce certificate r).nonce = scanNonce nonce r.hdrs := by
  simp only [acme_res_chkorder]
  split
  · rfl
  · split
    · rfl
    · split
      · rfl
      · split <;> rfl

lemma res_certificate_nonce (nonce : Option String) (store : StoreData) (env : CertEnv)
    (r : Response) :
    (acme_res_certificate nonce store env r).nonce = scanNonce nonce r.hdrs := by
  simp only [acme_res_certificate]
  split
  · rfl
  · split
    · rfl
    · split <;> rfl

lemma auth_select_spec (cfg : String) (auth : AcmeAuth) (l : List Chall)
    (hty : ∀ c ∈ l, c.ctype.isSome) :
    (l.find? (challSelPred cfg) = none → auth_select cfg auth l = (auth, true)) ∧
    (∀ c u tok, l.find? (challSelPred cfg) = some c → c.curl = some u → c.ctoken = some tok →
      auth_select cfg auth l = ({ auth with chall := some u, token := some tok }, true)) := by
  induction l with
  | nil => simp [auth_select]
  | cons c0 rest ih =>
    obtain ⟨t, ht⟩ := Option.isSome_iff_exists.mp (hty c0 (by simp))
    have hrest := ih (fun c hc => hty c (by simp [hc]))
    by_cases hm : typeMatch cfg t
    · have hpred : challSelPred cfg c0 = true := by simp [challSelPred, ht, hm]
      constructor
      · intro hnone
        simp [List.find?_cons, hpred] at hnone
      · intro c u tok hfind hu htok
        rw [List.find?_cons_of_pos _ hpred] at hfind
        obtain rfl : c0 = c := by injection hfind
        simp [auth_select, ht, hm, hu, htok]
    · have hpred : challSelPred cfg c0 = false := by simp [challSelPred, ht, hm]
      have hsel : auth_select cfg auth (c0 :: rest) = auth_select cfg auth rest := by
        simp [auth_select, ht, hm]
      constructor
      · intro hnone
        rw [List.find?_cons_of_neg _ (by simp [hpred])] at hnone
        rw [hsel]
        exact hrest.1 hnone
      · intro c u tok hfind hu htok
        rw [List.find?_cons_of_neg _ (by simp [hpred])] at hfind
        rw [hsel]
        exact hrest.2 c u tok hfind hu htok

lemma sanChunkAux_false_cons (rest : List String) :
    ∀ s : String, sanChunkAux false (s :: rest) = "," ++ dnsJoin (s :: rest) := by
  induction rest with
  | nil =>
    intro s
    rw [show sanChunkAux false [s] = "," ++ "DNS:" ++ s ++ sanChunkAux false [] from rfl]
    rw [show sanChunkAux false ([] : List String) = "" from rfl, String.append_empty]
    rw [String.append_assoc]
    rfl
  | cons r0 rrest ih =>
    intro s
    rw [show sanChunkAux false (s :: r0 :: rrest) =
          "," ++ "DNS:" ++ s ++ sanChunkAux false (r0 :: rrest) from rfl, ih r0]
    rw [show dnsJoin (s :: r0 :: rrest) = "DNS:" ++ s ++ "," ++ dnsJoin (r0 :: rrest) from rfl]
    rw [String.append_assoc, String.append_assoc, String.append_assoc, String.append_assoc]

lemma sanChunk_eq_dnsJoin (l : List String) : sanChunk l = dnsJoin l := by
  cases l with
  | nil => rfl
  | cons s rest =>
    cases rest with
    | nil =>
      rw [show sanChunk [s] = "DNS:" ++ s ++ sanChunkAux false [] from rfl]
      rw [show sanChunkAux false ([] : List String) = "" from rfl, String.append_empty]
      rfl
    | cons r0 rrest =>
      rw [show sanChunk (s :: r0 :: rrest) =
            "DNS:" ++ s ++ sanChunkAux false (r0 :: rrest) from rfl,
          sanChunkAux_false_cons rrest r0]
      simp [show dnsJoin (s :: r0 :: rrest) = "DNS:" ++ s ++ "," ++ dnsJoin (r0 :: rrest) from rfl,
            String.append_assoc]

/-- C1: the claim says that after the newAccount creation POST in state
NEWACCOUNT receives a 2xx response the machine advances to NEWORDER and the
task keeps running (destroyed only on overall success or retry exhaustion).
On the code the success branch of the NEWACCOUNT RES phase executes `goto
end` right after `task_wakeup`, so `task_destroy` runs: at a concrete 201
response the step result has `destroyed = true` — the renewal is torn down at
that point, contradicting the claim. -/
theorem C1_newaccount_2xx_destroys_task :
    non2xx respC1.status = false ∧
    (acme_process ctxC1 { envOk with resp := respC1 }).destroyed = true ∧
    (acme_process ctxC1 { envOk with resp := respC1 }).woken = true ∧
    (acme_process ctxC1 { envOk with resp := respC1 }).retried = false := by
  exact ⟨rfl, rfl, rfl, rfl⟩

/-- C9: the claim says that when `acme_update_certificate` is entered while
the CKCH lock is held by another party it fails with "couldn't get the
certificate lock!" and leaves the lock state unchanged, performing no unlock.
The failure and the message hold, but the `goto error` lands on the shared
`error:` label whose `HA_SPIN_UNLOCK` runs unconditionally: the lock held by
the other party ends up released (`Free`), not unchanged. -/
theorem C9_trylock_failure_unlocks_foreign_lock :
    (acme_update_certificate ⟨LockSt.HeldByOther, idx6⟩ ns6 rbOk).ok = false ∧
    (acme_update_certificate ⟨LockSt.HeldByOther, idx6⟩ ns6 rbOk).errmsg =
      some "couldn't get the certificate lock!" ∧
    (acme_update_certificate ⟨LockSt.HeldByOther, idx6⟩ ns6 rbOk).world.index = idx6 ∧
    (acme_update_certificate ⟨LockSt.HeldByOther, idx6⟩ ns6 rbOk).world.lock = LockSt.Free := by
  exact ⟨rfl, rfl, rfl, rfl⟩

/-- C10: every request-builder helper (`acme_req_finalize`,
`acme_req_challenge`, `acme_req_auth`, `acme_req_neworder`,
`acme_req_account`) unconditionally overwrites `*errmsg` with its fixed
failure message before returning — on the success path (return value 0) as
well as on failure — because the success path falls through into the `error:`
label where `memprintf` executes.  The last two conjuncts exhibit that both a
success and a failure return do occur. -/
theorem C10_req_builders_always_overwrite_errmsg :
    ∀ (env : ReqEnv) (san : Option (List String)),
      (acme_req_account env).errmsg = some "couldn't generate the newAccount request" ∧
      (acme_req_neworder env san).errmsg = some "couldn't generate the newOrder request" ∧
      (acme_req_auth env).errmsg = some "couldn't generate the Authorizations request" ∧
      (acme_req_challenge env).errmsg = some "couldn't generate the Challenge request" ∧
      (acme_req_finalize env).errmsg = some "couldn't request the finalize URL" ∧
      (acme_req_finalize ⟨true, true, true, true⟩).ok = true ∧
      (acme_req_finalize ⟨true, true, true, false⟩).ok = false := by
  intro env san
  exact ⟨rfl, rfl, rfl, rfl, rfl, rfl, rfl⟩

/-- C2 counterexample: the claim says the first `challenges[]` entry whose
type EQUALS the configured type case-insensitively is selected, and that the
handler fails when no entry matches.  At the first concrete input (only a
`dns-01` entry offered against a configured `HTTP-01`) `acme_res_auth`
returns success, not an error; at the second input an entry of type `http` —
which is NOT case-insensitively equal to `HTTP-01` — is nevertheless selected
(its url is stored), because the code's `strncasecmp` is bounded by the
response type's length and therefore accepts any case-insensitive prefix. -/
theorem C2_challenge_selection_cex :
    (acme_res_auth "HTTP-01" (some "nonce0") authA respC2a).ok = true ∧
    (acme_res_auth "HTTP-01" (some "nonce0") authA respC2a).auth.chall = none ∧
    istEqi "http" "HTTP-01" = false ∧
    (acme_res_auth "HTTP-01" (some "nonce0") authA respC2b).ok = true ∧
    (acme_res_auth "HTTP-01" (some "nonce0") authA respC2b).auth.chall = some "https://ch/2" ∧
    (acme_res_auth "HTTP-01" (some "nonce0") authA respC2b).auth.token = some "tok2" := by
  exact ⟨rfl, rfl, by decide, rfl, rfl, rfl⟩

/-- C3 counterexample: the claim says CHKCHALLENGE keeps re-polling the same
authorization while the challenge object's status is `pending`/`processing`.
At a concrete 2xx response whose `$.status` is `pending` (and with no error
object), the machine advances past the last authorization straight to
FINALIZE without any retry — the status field is never consulted. -/
theorem C3_chkchallenge_cex :
    respC3.body.ostatus = some "pending" ∧
    (acme_process ctxC3 { envOk with resp := respC3 }).ctx.state = AcmeSt.FINALIZE ∧
    (acme_process ctxC3 { envOk with resp := respC3 }).retried = false ∧
    (acme_process ctxC3 { envOk with resp := respC3 }).woken = true := by
  exact ⟨rfl, rfl, rfl, rfl⟩

/-- C4 counterexample: the claim says EVERY response handler, including the
newNonce (HEAD) handler, replaces `ctx->nonce` when a `Replay-Nonce` header
is present, for error statuses as well.  `acme_nonce` checks the status
before scanning the headers: at a concrete 400 response carrying
`Replay-Nonce: fresh` the stored nonce is left unchanged. -/
theorem C4_nonce_refresh_cex :
    lastNonceHdr respC4.hdrs = some "fresh" ∧
    acme_nonce (some "nonce0") respC4 = (some "nonce0", false) := by
  exact ⟨by decide, rfl⟩

/-- C7 counterexample: the claim says the leaf private key in
`ctx->store->data->key` is the same object after every invocation of
`acme_res_certificate`, the pointer being saved and restored on every path.
When the PEM ingestion itself fails (here `ssl_sock_load_pem_into_ckch`
returns nonzero on a 2xx response), the error path is taken after the key
slot was set to NULL and before the restore: the key (tag 7 below) is lost. -/
theorem C7_key_preservation_cex :
    (acme_res_certificate (some "nonce0") ⟨some 7, none⟩ ⟨none, true⟩
      { status := 200, hdrs := [], body := Body.empty }).store.key = none ∧
    (some 7 : Option Nat) ≠ none := by
  exact ⟨rfl, by decide⟩

/-- C5: on any step failure in any state — exactly the runs of the `retry:`
label of `acme_process` — the stored context has its HTTP phase back at REQ
and its retry budget decremented by one; the task re-wakes itself while the
decremented budget is still positive and is destroyed (after logging) once it
reaches zero; consequently with `ACME_RETRY = 1` (budget initialized to 1 by
the trigger) the first failure of any step destroys the task: every step gets
exactly one attempt. -/
theorem C5_retry_policy (ctx : AcmeCtx) (env : StepEnv)
    (h : (acme_process ctx env).retried = true) :
    (acme_process ctx env).ctx.http_state = HttpSt.REQ ∧
    (acme_process ctx env).ctx.retries = ctx.retries - 1 ∧
    ((acme_process ctx env).destroyed = true ↔ ctx.retries - 1 ≤ 0) ∧
    ((acme_process ctx env).woken = true ↔ 0 < ctx.retries - 1) ∧
    (ctx.retries = 1 → (acme_process ctx env).destroyed = true) := by
  rcases retry_cases ctx env with hf | ⟨c, hc, hhttp, hret⟩
  · rw [h] at hf
    exact absurd hf (by simp)
  · have hs := acme_retry_spec c
    rw [hhttp, hret] at hs
    rw [hc]
    exact ⟨hs.1, hs.2.1, hs.2.2.2.1, hs.2.2.2.2,
           fun h1 => hs.2.2.2.1.mpr (by omega)⟩

/-- C5 witness: a concrete renewal with a budget of 1 whose very first
request issue fails is destroyed by that single failure. -/
theorem C5_retry_policy_witness :
    (acme_process { ctxBase with retries := 1 }
      { envOk with req := ⟨true, true, true, false⟩ }).retried = true ∧
    (acme_process { ctxBase with retries := 1 }
      { envOk with req := ⟨true, true, true, false⟩ }).destroyed = true := by
  refine ⟨rfl, ?_⟩
  exact (C5_retry_policy { ctxBase with retries := 1 }
    { envOk with req := ⟨true, true, true, false⟩ } rfl).2.2.2.2 rfl

/-- C3 (amended): in CHKCHALLENGE the driver advances on ANY 2xx response
that carries no `$.error` object — the challenge object's `$.status` field is
never consulted, so `pending`/`processing` do not cause re-polling — moving
to the next authorization and to FINALIZE once past the last; it stays in
CHKCHALLENGE only through the retry path (consuming retry budget), which runs
exactly when the response is non-2xx or carries an error object. -/
theorem C3_chkchallenge_amended (ctx : AcmeCtx) (env : StepEnv)
    (hst : ctx.state = AcmeSt.CHKCHALLENGE) (hh : ctx.http_state = HttpSt.RES) :
    (non2xx env.resp.status = false → env.resp.body.errorObj = false →
      (acme_process ctx env).retried = false ∧
      (acme_process ctx env).woken = true ∧
      (acme_process ctx env).ctx.nextAuth = ctx.nextAuth + 1 ∧
      (acme_process ctx env).ctx.http_state = HttpSt.REQ ∧
      (acme_process ctx env).ctx.state =
        (if ctx.nextAuth + 1 ≥ ctx.auths.length then AcmeSt.FINALIZE
         else AcmeSt.CHKCHALLENGE)) ∧
    (non2xx env.resp.status = true ∨ env.resp.body.errorObj = true →
      (acme_process ctx env).retried = true ∧
      (acme_process ctx env).ctx.state = AcmeSt.CHKCHALLENGE ∧
      (acme_process ctx env).ctx.nextAuth = ctx.nextAuth ∧
      (acme_process ctx env).ctx.http_state = HttpSt.REQ ∧
      (acme_process ctx env).ctx.retries = ctx.retries - 1) := by
  obtain ⟨st, hstx, retr, nonce, kid, order, fin, cert, res, auths, na, store, doms, cfg⟩ := ctx
  simp only at hst hh
  subst hst
  subst hh
  constructor
  · intro h1 h2
    by_cases hlen : na + 1 ≥ auths.length
    · simp [acme_process, acme_res_challenge, h1, h2, acme_wake, hlen]
    · simp [acme_process, acme_res_challenge, h1, h2, acme_wake, hlen]
  · intro hfail
    have hor : (non2xx env.resp.status || env.resp.body.errorObj) = true := by
      rcases hfail with hf | hf <;> simp [hf]
    by_cases hr : (0 : Int) < retr - 1 <;>
      simp [acme_process, acme_res_challenge, hor, acme_retry, hr]

/-- C3 witness: instantiates the amended transition at the concrete pending
2xx response: the step neither retries nor stays. -/
theorem C3_chkchallenge_witness :
    non2xx respC3.status = false ∧
    respC3.body.errorObj = false ∧
    (acme_process ctxC3 { envOk with resp := respC3 }).retried = false ∧
    (acme_process ctxC3 { envOk with resp := respC3 }).woken = true := by
  have h := (C3_chkchallenge_amended ctxC3 { envOk with resp := respC3 } rfl rfl).1 rfl rfl
  exact ⟨rfl, rfl, h.1, h.2.1⟩

/-- C2 (amended): when the authorization response is 2xx and every offered
challenge entry carries a `type` field, the first entry accepted by the
source's comparison — `strncasecmp` bounded by the length of the entry's
type, i.e. a case-insensitive PREFIX match against the configured challenge
type — is selected, its `url` and `token` stored into the auth; when no entry
is accepted the handler returns SUCCESS with the auth unchanged (the step
does not fail; the renewal only breaks later on the unset challenge URL). -/
theorem C2_challenge_selection_amended (cfg : String) (nonce : Option String)
    (auth : AcmeAuth) (r : Response)
    (h2 : non2xx r.status = false)
    (hty : ∀ c ∈ r.body.challenges, c.ctype.isSome) :
    (r.body.challenges.find? (challSelPred cfg) = none →
      acme_res_auth cfg nonce auth r = ⟨scanNonce nonce r.hdrs, auth, true⟩) ∧
    (∀ c u tok, r.body.challenges.find? (challSelPred cfg) = some c →
      c.curl = some u → c.ctoken = some tok →
      acme_res_auth cfg nonce auth r =
        ⟨scanNonce nonce r.hdrs, { auth with chall := some u, token := some tok }, true⟩) := by
  have hs := auth_select_spec cfg auth r.body.challenges hty
  constructor
  · intro hnone
    simp [acme_res_auth, h2, hs.1 hnone]
  · intro c u tok hfind hu htok
    simp [acme_res_auth, h2, hs.2 c u tok hfind hu htok]

/-- C2 witness: instantiates the amended selection on the concrete prefix
input: the `http` entry is the first (and only) accepted one and its url and
token are stored. -/
theorem C2_challenge_selection_witness :
    respC2b.body.challenges.find? (challSelPred "HTTP-01") =
      some ⟨some "http", some "https://ch/2", some "tok2"⟩ ∧
    acme_res_auth "HTTP-01" (some "nonce0") authA respC2b =
      ⟨some "nonce0", { authA with chall := some "https://ch/2", token := some "tok2" }, true⟩ := by
  refine ⟨by decide, ?_⟩
  have h := (C2_challenge_selection_amended "HTTP-01" (some "nonce0") authA respC2b rfl
      (by decide)).2 ⟨some "http", some "https://ch/2", some "tok2"⟩ "https://ch/2" "tok2"
      (by decide) rfl rfl
  exact h.trans rfl

/-- C4 (amended): every response handler of the renewal except the newNonce
one harvests `Replay-Nonce` before classifying the status: whenever the
headers carry a `Replay-Nonce`, the stored nonce is replaced by the last such
header's value on 2xx and error responses alike, in the account, newOrder,
authorization, challenge, finalize, order-poll and certificate handlers; the
newNonce (HEAD) handler classifies the status first, harvesting the header
only on 2xx and leaving the nonce unchanged on an error status. -/
theorem C4_nonce_refresh_amended (kid nonce order fin certificate : Option String)
    (b : Bool) (cfg : String) (auth : AcmeAuth) (auths : List AcmeAuth)
    (store : StoreData) (cenv : CertEnv) (r : Response) (v : String)
    (hv : lastNonceHdr r.hdrs = some v) :
    (acme_res_account kid nonce b r).nonce = some v ∧
    (acme_res_neworder nonce order fin auths r).nonce = some v ∧
    (acme_res_auth cfg nonce auth r).nonce = some v ∧
    (acme_res_challenge nonce r).1 = some v ∧
    (acme_res_finalize nonce r).1 = some v ∧
    (acme_res_chkorder nonce certificate r).nonce = some v ∧
    (acme_res_certificate nonce store cenv r).nonce = some v ∧
    (non2xx r.status = false → (acme_nonce nonce r).1 = some v) ∧
    (non2xx r.status = true → (acme_nonce nonce r).1 = nonce) := by
  have hs := scanNonce_last r.hdrs v nonce hv
  refine ⟨?_, ?_, ?_, ?_, ?_, ?_, ?_, ?_, ?_⟩
  · rw [res_account_nonce, hs]
  · rw [res_neworder_nonce, hs]
  · rw [res_auth_nonce, hs]
  · rw [res_challenge_nonce, hs]
  · rw [res_finalize_nonce, hs]
  · rw [res_chkorder_nonce, hs]
  · rw [res_certificate_nonce, hs]
  · intro h
    simp [acme_nonce, h, hs]
  · intro h
    simp [acme_nonce, h]

/-- C4 witness: the 201 newAccount response carrying `Replay-Nonce: nonce1`
refreshes the nonce in the account handler and in the (2xx) newNonce
handler. -/
theorem C4_nonce_refresh_witness :
    lastNonceHdr respC1.hdrs = some "nonce1" ∧
    (acme_res_account none (some "nonce0") false respC1).nonce = some "nonce1" ∧
    (acme_nonce (some "nonce0") respC1).1 = some "nonce1" := by
  have h := C4_nonce_refresh_amended none (some "nonce0") none none none false "HTTP-01"
      authA [] ⟨some 7, none⟩ ⟨none, true⟩ respC1 "nonce1" (by decide)
  exact ⟨by decide, h.1, h.2.2.2.2.2.2.2.1 rfl⟩

lemma rebuildAll_isSome_iff (rebuild : CkchInst → Option CkchInst) (l : List CkchInst) :
    (rebuildAll rebuild l).isSome ↔ ∀ i ∈ l, (rebuild i).isSome := by
  induction l with
  | nil => simp [rebuildAll]
  | cons i rest ih =>
    cases hi : rebuild i with
    | none => simp [rebuildAll, hi]
    | some ni => simp [rebuildAll, hi, ih]

/-- C6: the hot-swap installer replaces the live store entry in the index
only after the lock was acquired, the live entry was found, and EVERY TLS
binding rebuild succeeded (the index then maps the path to the new entry,
which carries the rebuilt bindings); on any failure — busy try-lock, failed
lookup, or any single rebuild failure — it returns an error and the live
entry is left unchanged in the store index. -/
theorem C6_hot_swap_guard (w : CkchWorld) (ns : CkchStore)
    (rebuild : CkchInst → Option CkchInst) :
    ((acme_update_certificate w ns rebuild).ok = false →
      (acme_update_certificate w ns rebuild).world.index = w.index) ∧
    ((acme_update_certificate w ns rebuild).ok = true →
      w.lock = LockSt.Free ∧
      ∃ old, ckchs_lookup w.index ns.path = some old ∧
        (∀ i ∈ old.insts, (rebuild i).isSome) ∧
        ∃ nl, rebuildAll rebuild old.insts = some nl ∧
          (acme_update_certificate w ns rebuild).world.index =
            ckch_store_replace w.index ns.path { ns with insts := ns.insts ++ nl }) ∧
    (∀ old, ckchs_lookup w.index ns.path = some old →
      (∃ i ∈ old.insts, rebuild i = none) →
      (acme_update_certificate w ns rebuild).ok = false) := by
  by_cases hl : w.lock = LockSt.Free
  · cases hfind : ckchs_lookup w.index ns.path with
    | none => simp [acme_update_certificate, hl, hfind]
    | some old =>
      cases hall : rebuildAll rebuild old.insts with
      | none =>
        refine ⟨?_, ?_, ?_⟩
        · intro _
          simp [acme_update_certificate, hl, hfind, hall]
        · intro hok
          simp [acme_update_certificate, hl, hfind, hall] at hok
        · intro _ _ _
          simp [acme_update_certificate, hl, hfind, hall]
      | some nl =>
        refine ⟨?_, ?_, ?_⟩
        · intro hok
          simp [acme_update_certificate, hl, hfind, hall] at hok
        · intro _
          refine ⟨hl, old, rfl, ?_, nl, hall, ?_⟩
          · exact (rebuildAll_isSome_iff rebuild old.insts).mp (by simp [hall])
          · simp [acme_update_certificate, hl, hfind, hall]
        · intro old2 hfind2 ⟨i, hi, hnone⟩
          obtain rfl : old = old2 := by injection hfind2
          have : (rebuildAll rebuild old.insts).isSome := by simp [hall]
          have hforall := (rebuildAll_isSome_iff rebuild old.insts).mp this i hi
          simp [hnone] at hforall
  · have hne : w.lock ≠ LockSt.Free := hl
    simp [acme_update_certificate, hne]

/-- C6 witness: with a free lock, a live entry with two bindings and an
always-succeeding rebuild the swap installs the new entry with the rebuilt
bindings; with a rebuild failing on the second binding the installer errors
and the index is untouched. -/
theorem C6_hot_swap_guard_witness :
    (acme_update_certificate ⟨LockSt.Free, idx6⟩ ns6 rbOk).ok = true ∧
    (∃ old, ckchs_lookup idx6 ns6.path = some old ∧
      (∀ i ∈ old.insts, (rbOk i).isSome) ∧
      ∃ nl, rebuildAll rbOk old.insts = some nl ∧
        (acme_update_certificate ⟨LockSt.Free, idx6⟩ ns6 rbOk).world.index =
          ckch_store_replace idx6 ns6.path { ns6 with insts := ns6.insts ++ nl }) ∧
    (acme_update_certificate ⟨LockSt.Free, idx6⟩ ns6 rbFail).ok = false ∧
    (acme_update_certificate ⟨LockSt.Free, idx6⟩ ns6 rbFail).world.index = idx6 := by
  refine ⟨rfl, ?_, rfl, ?_⟩
  · exact ((C6_hot_swap_guard ⟨LockSt.Free, idx6⟩ ns6 rbOk).2.1 rfl).2
  · exact (C6_hot_swap_guard ⟨LockSt.Free, idx6⟩ ns6 rbFail).1 rfl

/-- C7 (amended): `acme_res_certificate` leaves the store untouched on a
non-2xx response; when the PEM ingestion succeeds the saved key pointer is
restored over the ingested data (the leaf key is the same object as before,
whatever the subsequent hot-swap outcome); but when the PEM ingestion itself
fails the function errors out after NULLing the key slot and before the
restore, leaving the key detached (NULL). -/
theorem C7_key_preservation_amended (nonce : Option String) (store : StoreData)
    (env : CertEnv) (r : Response) :
    (non2xx r.status = true → (acme_res_certificate nonce store env r).store = store) ∧
    (non2xx r.status = false → ∀ d, env.pemResult = some d →
      (acme_res_certificate nonce store env r).store.key = store.key ∧
      (acme_res_certificate nonce store env r).store.cert = d.cert) ∧
    (non2xx r.status = false → env.pemResult = none →
      (acme_res_certificate nonce store env r).store.key = none) := by
  refine ⟨?_, ?_, ?_⟩
  · intro h
    simp [acme_res_certificate, h]
  · intro h d hd
    by_cases hu : env.updateOk <;> simp [acme_res_certificate, h, hd, hu]
  · intro h hd
    simp [acme_res_certificate, h, hd]

/-- C7 witness: on a 2xx download whose PEM ingestion succeeds, the key tag 7
survives the call. -/
theorem C7_key_preservation_witness :
    (acme_res_certificate (some "nonce0") ⟨some 7, none⟩ ⟨some ⟨none, some "pem"⟩, true⟩
      { status := 200, hdrs := [], body := Body.empty }).store.key = some 7 := by
  exact ((C7_key_preservation_amended (some "nonce0") ⟨some 7, none⟩
    ⟨some ⟨none, some "pem"⟩, true⟩
    { status := 200, hdrs := [], body := Body.empty }).2.1 rfl ⟨none, some "pem"⟩ rfl).1

/-- C8: for every key and non-empty NUL-terminated name list the CSR builder
returns a request signed with SHA-256 under the key, whose Subject CN equals
the first name and which carries a single subjectAltName extension whose
value is the comma-joined `DNS:` list over every name; on the empty list it
returns NULL (OpenSSL rejects the NULL CN bytes) and the trigger reports the
CSR-generation error. -/
theorem C8_csr_builder (pkey : Nat) (san : List String) (h : san ≠ []) :
    acme_x509_req pkey san =
      some { pubkey := pkey, subjectCN := some (san.head h),
             extensions := [("subjectAltName", dnsJoin san)],
             sigKey := some pkey, sigMD := "SHA256" } ∧
    acme_x509_req pkey [] = none ∧
    cli_csr_step pkey [] = Except.error "Can't generate a CSR.\n" := by
  refine ⟨?_, rfl, rfl⟩
  cases san with
  | nil => exact absurd rfl h
  | cons s rest =>
    simp [acme_x509_req, sanChunk_eq_dnsJoin]

/-- C8 witness: a two-name list produces CN `a.example` and the SAN value
`DNS:a.example,DNS:b.example`. -/
theorem C8_csr_builder_witness :
    acme_x509_req 5 ["a.example", "b.example"] =
      some { pubkey := 5, subjectCN := some "a.example",
             extensions := [("subjectAltName", "DNS:a.example,DNS:b.example")],
             sigKey := some 5, sigMD := "SHA256" } := by
  exact ((C8_csr_builder 5 ["a.example", "b.example"] (by decide)).1).trans (by rfl)

end Acme
